import Mathlib

/-!
Verification of the tactile-relief mesh generation and validation core
(`art_tactile_transform.core.mesh_generation`, `art_tactile_transform.core.validation`,
and the duplicate generator in `art_tactile_transform.main`).

Modelling conventions:
* STL text is modelled as `List Char`; each write of a line `l` appends `l ++ ['\n']`.
* Python floats are modelled as rationals `ℚ`; the floating-point square root used by
  `np.linalg.norm` (applied to the sum of squares) is abstracted as a parameter
  `sqrtA : ℚ → ℚ`, so every text-level statement is proved for an arbitrary
  square-root routine.  The idealised real-number semantics of
  `calculate_normals` (with `Real.sqrt`) is modelled separately for the
  numerical claim about unit normals.
* `str.format` with `:.3f` / `:.6f` is modelled by `fmtFixed`, fixed-point decimal
  rendering with round-half-to-even.
* Validation messages are modelled as tagged values (`Validation.Msg`) carrying the
  numeric payloads that the Python code interpolates into its message strings.
* The filesystem seen by `validate_mesh` is modelled as
  `Option (Option (List Char))`: `none` = path does not exist,
  `some none` = path exists but reading raises, `some (some c)` = content `c`.
-/

/-- Character class of fixed-point number renderings plus the separating blank:
digits, decimal point, minus sign, space. -/
def numCh (c : Char) : Bool :=
  c.isDigit || c == '.' || c == '-' || c == ' '

/-- Decimal digit character for `n % 10`. -/
def digitChar (n : Nat) : Char :=
  Char.ofNat (48 + n % 10)

/-- Fuelled most-significant-first decimal digit list. -/
def natDigitsAux : Nat → Nat → List Char
  | 0, _ => []
  | fuel + 1, n =>
    if n < 10 then [digitChar n]
    else natDigitsAux fuel (n / 10) ++ [digitChar (n % 10)]

/-- Decimal digit list of a natural number. -/
def natDigits (n : Nat) : List Char :=
  natDigitsAux (n + 1) n

/-- Round a rational to the nearest integer, ties to even (Python float formatting
rounds half to even). -/
def roundHalfEven (q : ℚ) : ℤ :=
  let f := ⌊q⌋
  let r := q - (f : ℚ)
  if 1 / 2 < r then f + 1
  else if r < 1 / 2 then f
  else if f % 2 = 0 then f else f + 1

/-- Fixed-point rendering of a rational with `prec` fractional digits, modelling
Python `{x:.3f}` / `{x:.6f}` format specifiers. -/
def fmtFixed (prec : Nat) (q : ℚ) : List Char :=
  let n := roundHalfEven (q * (10 : ℚ) ^ prec)
  let s := natDigits n.natAbs
  let s := if prec + 1 ≤ s.length then s else List.replicate (prec + 1 - s.length) '0' ++ s
  (if n < 0 then ['-'] else []) ++ s.take (s.length - prec) ++ ['.'] ++ s.drop (s.length - prec)

/-- Boolean test that `pat` is a prefix of the second list (Python `str.startswith`,
and the per-position test behind `str.count`). -/
def leadsWith : List Char → List Char → Bool
  | [], _ => true
  | _ :: _, [] => false
  | p :: ps, c :: cs => p == c && leadsWith ps cs

/-- Number of positions at which `pat` occurs in the text.  For patterns that cannot
overlap themselves (all patterns used here) this equals Python `str.count`. -/
def countOcc (pat : List Char) : List Char → Nat
  | [] => 0
  | c :: cs => (if leadsWith pat (c :: cs) then 1 else 0) + countOcc pat cs

/-- Python whitespace characters stripped by `str.rstrip()`. -/
def pyWs (c : Char) : Bool :=
  c == ' ' || c == '\t' || c == '\n' || c == '\r' || c == Char.ofNat 11 || c == Char.ofNat 12

/-- Python `str.rstrip()`: drop trailing whitespace. -/
def rstripL (s : List Char) : List Char :=
  (s.reverse.dropWhile pyWs).reverse

/-- Python `str.endswith(pat)`. -/
def endsWithB (pat s : List Char) : Bool :=
  leadsWith pat.reverse s.reverse

/-- Pattern counted by the validator: `facet normal`. -/
def fnPat : List Char :=
  ['f', 'a', 'c', 'e', 't', ' ', 'n', 'o', 'r', 'm', 'a', 'l']

/-- Pattern counted by the validator: `vertex`. -/
def vxPat : List Char :=
  ['v', 'e', 'r', 't', 'e', 'x']

/-- Pattern required at the start of the file: `solid`. -/
def solidPat : List Char :=
  ['s', 'o', 'l', 'i', 'd']

/-- Expected trailer `endsolid tactile_model`. -/
def endsolidPat : List Char :=
  ['e', 'n', 'd', 's', 'o', 'l', 'i', 'd', ' ',
   't', 'a', 'c', 't', 'i', 'l', 'e', '_', 'm', 'o', 'd', 'e', 'l']

/-- Header line `solid tactile_model`. -/
def solidLine : List Char :=
  ['s', 'o', 'l', 'i', 'd', ' ',
   't', 'a', 'c', 't', 'i', 'l', 'e', '_', 'm', 'o', 'd', 'e', 'l']

/-- Line fragment starting a facet: two spaces, `facet normal`, one space. -/
def facetHead : List Char :=
  [' ', ' ', 'f', 'a', 'c', 'e', 't', ' ', 'n', 'o', 'r', 'm', 'a', 'l', ' ']

/-- Line `    outer loop`. -/
def outerLine : List Char :=
  [' ', ' ', ' ', ' ', 'o', 'u', 't', 'e', 'r', ' ', 'l', 'o', 'o', 'p']

/-- Line fragment starting a vertex: six spaces, `vertex`, one space. -/
def vtxHead : List Char :=
  [' ', ' ', ' ', ' ', ' ', ' ', 'v', 'e', 'r', 't', 'e', 'x', ' ']

/-- Line `    endloop`. -/
def endloopLine : List Char :=
  [' ', ' ', ' ', ' ', 'e', 'n', 'd', 'l', 'o', 'o', 'p']

/-- Line `  endfacet`. -/
def endfacetLine : List Char :=
  [' ', ' ', 'e', 'n', 'd', 'f', 'a', 'c', 'e', 't']

/-- Base-plate facet line `  facet normal 0.0 0.0 -1.0` (written with literal
coordinates in the source, not formatted ones). -/
def baseFacetLine : List Char :=
  [' ', ' ', 'f', 'a', 'c', 'e', 't', ' ', 'n', 'o', 'r', 'm', 'a', 'l', ' ',
   '0', '.', '0', ' ', '0', '.', '0', ' ', '-', '1', '.', '0']

/-- A facet: unit normal plus three vertices, each an `(x, y, z)` triple. -/
structure Tri where
  nrm : ℚ × ℚ × ℚ
  v0 : ℚ × ℚ × ℚ
  v1 : ℚ × ℚ × ℚ
  v2 : ℚ × ℚ × ℚ
deriving DecidableEq, Repr

namespace MeshGen

/-- Cross product of two 3-vectors (`np.cross`). -/
def crossQ (u v : ℚ × ℚ × ℚ) : ℚ × ℚ × ℚ :=
  (u.2.1 * v.2.2 - u.2.2 * v.2.1,
   u.2.2 * v.1 - u.1 * v.2.2,
   u.1 * v.2.1 - u.2.1 * v.1)

/-- Embedding of `calculate_normals` (mesh_generation.py lines 9–39) over ℚ, with the
floating-point square root of `np.linalg.norm` abstracted as `sqrtA` applied to the
sum of squares.  The unused `i`, `j` arguments of the source are kept. -/
def calculate_normals (sqrtA : ℚ → ℚ) (z00 z10 z01 z11 : ℚ) (i j : ℕ)
    (pixel_scale : ℚ) : ℚ × ℚ × ℚ :=
  let v1 : ℚ × ℚ × ℚ := (pixel_scale, 0, z10 - z00)
  let v2 : ℚ × ℚ × ℚ := (0, pixel_scale, z01 - z00)
  let n := crossQ v1 v2
  let length := sqrtA (n.1 ^ 2 + n.2.1 ^ 2 + n.2.2 ^ 2)
  if 0 < length then (n.1 / length, n.2.1 / length, n.2.2 / length)
  else (0, 0, 1)

/-- Element access `heightmap[i, j]` on the row-major grid. -/
def att (g : List (List ℚ)) (i j : ℕ) : ℚ :=
  (g.getD i []).getD j 0

/-- Number of rows, `heightmap.shape[0]`. -/
def rowsOf (g : List (List ℚ)) : ℕ :=
  g.length

/-- Number of columns, `heightmap.shape[1]`. -/
def colsOf (g : List (List ℚ)) : ℕ :=
  (g.getD 0 []).length

/-- Entry of `normalized_heights` (mesh_generation.py lines 73–75):
`heightmap * (max_height_mm - min_height_mm) + min_height_mm + base_thickness_mm`. -/
def normalizedHeight (mn mx b h : ℚ) : ℚ :=
  h * (mx - mn) + mn + b

/-- The 14 lines written for cell `(i, j)` (mesh_generation.py lines 84–115):
two facets sharing one `calculate_normals` result. -/
def cellLines (sqrtA : ℚ → ℚ) (g : List (List ℚ)) (mn mx b ps : ℚ)
    (i j : ℕ) : List (List Char) :=
  let z00 := normalizedHeight mn mx b (att g i j)
  let z10 := normalizedHeight mn mx b (att g (i + 1) j)
  let z01 := normalizedHeight mn mx b (att g i (j + 1))
  let z11 := normalizedHeight mn mx b (att g (i + 1) (j + 1))
  let x0 := (i : ℚ) * ps
  let x1 := ((i : ℚ) + 1) * ps
  let y0 := (j : ℚ) * ps
  let y1 := ((j : ℚ) + 1) * ps
  let nm := calculate_normals sqrtA z00 z10 z01 z11 i j ps
  [facetHead ++ fmtFixed 6 nm.1 ++ [' '] ++ fmtFixed 6 nm.2.1 ++ [' '] ++ fmtFixed 6 nm.2.2,
   outerLine,
   vtxHead ++ fmtFixed 3 x0 ++ [' '] ++ fmtFixed 3 y0 ++ [' '] ++ fmtFixed 3 z00,
   vtxHead ++ fmtFixed 3 x1 ++ [' '] ++ fmtFixed 3 y0 ++ [' '] ++ fmtFixed 3 z10,
   vtxHead ++ fmtFixed 3 x1 ++ [' '] ++ fmtFixed 3 y1 ++ [' '] ++ fmtFixed 3 z11,
   endloopLine,
   endfacetLine,
   facetHead ++ fmtFixed 6 nm.1 ++ [' '] ++ fmtFixed 6 nm.2.1 ++ [' '] ++ fmtFixed 6 nm.2.2,
   outerLine,
   vtxHead ++ fmtFixed 3 x0 ++ [' '] ++ fmtFixed 3 y0 ++ [' '] ++ fmtFixed 3 z00,
   vtxHead ++ fmtFixed 3 x1 ++ [' '] ++ fmtFixed 3 y1 ++ [' '] ++ fmtFixed 3 z11,
   vtxHead ++ fmtFixed 3 x0 ++ [' '] ++ fmtFixed 3 y1 ++ [' '] ++ fmtFixed 3 z01,
   endloopLine,
   endfacetLine]

/-- Top-surface lines: the nested `for i` / `for j` loops (lines 84–115). -/
def topLines (sqrtA : ℚ → ℚ) (g : List (List ℚ)) (mn mx b ps : ℚ) : List (List Char) :=
  (List.range (rowsOf g - 1)).flatMap fun i =>
    (List.range (colsOf g - 1)).flatMap fun j =>
      cellLines sqrtA g mn mx b ps i j

/-- Base-plate lines (mesh_generation.py lines 117–137).  The source writes the
`x`/`y` zeros and the normal literally, and formats `max_x`, `max_y`, `base_z`. -/
def baseLines (g : List (List ℚ)) (b ps : ℚ) : List (List Char) :=
  let maxX := ((rowsOf g : ℚ) - 1) * ps
  let maxY := ((colsOf g : ℚ) - 1) * ps
  let baseZ := b
  [baseFacetLine,
   outerLine,
   vtxHead ++ ['0', '.', '0', ' ', '0', '.', '0', ' '] ++ fmtFixed 3 baseZ,
   vtxHead ++ fmtFixed 3 maxX ++ [' '] ++ fmtFixed 3 maxY ++ [' '] ++ fmtFixed 3 baseZ,
   vtxHead ++ fmtFixed 3 maxX ++ [' ', '0', '.', '0', ' '] ++ fmtFixed 3 baseZ,
   endloopLine,
   endfacetLine,
   baseFacetLine,
   outerLine,
   vtxHead ++ ['0', '.', '0', ' ', '0', '.', '0', ' '] ++ fmtFixed 3 baseZ,
   vtxHead ++ ['0', '.', '0', ' '] ++ fmtFixed 3 maxY ++ [' '] ++ fmtFixed 3 baseZ,
   vtxHead ++ fmtFixed 3 maxX ++ [' '] ++ fmtFixed 3 maxY ++ [' '] ++ fmtFixed 3 baseZ,
   endloopLine,
   endfacetLine]

/-- All lines written between opening and closing the file (lines 80–139). -/
def stlLines (sqrtA : ℚ → ℚ) (g : List (List ℚ)) (mn mx b ps : ℚ) : List (List Char) :=
  solidLine :: (topLines sqrtA g mn mx b ps ++ baseLines g b ps ++ [endsolidPat])

/-- The full STL text: every line is written with a trailing newline. -/
def stlText (sqrtA : ℚ → ℚ) (g : List (List ℚ)) (mn mx b ps : ℚ) : List Char :=
  (stlLines sqrtA g mn mx b ps).flatMap fun l => l ++ ['\n']

/-- Validation failure of `heightmap_to_stl`: `ValueError("Heightmap cannot be empty")`.
The `heightmap.ndim != 2` branch is unrepresentable in the 2D list-of-rows domain. -/
inductive GenErr where
  | emptyHeightmap
deriving DecidableEq, Repr

/-- Embedding of `heightmap_to_stl` (mesh_generation.py lines 42–139): validation
followed by the text written to the output file. -/
def heightmap_to_stl (sqrtA : ℚ → ℚ) (g : List (List ℚ))
    (mn mx b ps : ℚ) : Except GenErr (List Char) :=
  if (g.map List.length).sum = 0 then Except.error GenErr.emptyHeightmap
  else Except.ok (stlText sqrtA g mn mx b ps)

/-- Facet-level content of the two triangles written for cell `(i, j)`
(lines 94–115): the coordinate triples passed to the six `vertex` writes. -/
def cellTris (sqrtA : ℚ → ℚ) (g : List (List ℚ)) (mn mx b ps : ℚ)
    (i j : ℕ) : List Tri :=
  let z00 := normalizedHeight mn mx b (att g i j)
  let z10 := normalizedHeight mn mx b (att g (i + 1) j)
  let z01 := normalizedHeight mn mx b (att g i (j + 1))
  let z11 := normalizedHeight mn mx b (att g (i + 1) (j + 1))
  let x0 := (i : ℚ) * ps
  let x1 := ((i : ℚ) + 1) * ps
  let y0 := (j : ℚ) * ps
  let y1 := ((j : ℚ) + 1) * ps
  let nm := calculate_normals sqrtA z00 z10 z01 z11 i j ps
  [⟨nm, (x0, y0, z00), (x1, y0, z10), (x1, y1, z11)⟩,
   ⟨nm, (x0, y0, z00), (x1, y1, z11), (x0, y1, z01)⟩]

/-- Facet-level content of the top surface, in emission order. -/
def topTris (sqrtA : ℚ → ℚ) (g : List (List ℚ)) (mn mx b ps : ℚ) : List Tri :=
  (List.range (rowsOf g - 1)).flatMap fun i =>
    (List.range (colsOf g - 1)).flatMap fun j =>
      cellTris sqrtA g mn mx b ps i j

/-- Facet-level content of the base-plate block (lines 117–137). -/
def baseTris (g : List (List ℚ)) (b ps : ℚ) : List Tri :=
  let maxX := ((rowsOf g : ℚ) - 1) * ps
  let maxY := ((colsOf g : ℚ) - 1) * ps
  let baseZ := b
  [⟨(0, 0, -1), (0, 0, baseZ), (maxX, maxY, baseZ), (maxX, 0, baseZ)⟩,
   ⟨(0, 0, -1), (0, 0, baseZ), (0, maxY, baseZ), (maxX, maxY, baseZ)⟩]

/-- Idealised real-number semantics of `calculate_normals`: the same computation
with exact arithmetic and `Real.sqrt` for `np.linalg.norm`.  Used for the
numerical unit-length claim. -/
noncomputable def calculate_normalsR (z00 z10 z01 z11 : ℝ) (i j : ℕ)
    (pixel_scale : ℝ) : ℝ × ℝ × ℝ :=
  let v1 : ℝ × ℝ × ℝ := (pixel_scale, 0, z10 - z00)
  let v2 : ℝ × ℝ × ℝ := (0, pixel_scale, z01 - z00)
  let n : ℝ × ℝ × ℝ :=
    (v1.2.1 * v2.2.2 - v1.2.2 * v2.2.1,
     v1.2.2 * v2.1 - v1.1 * v2.2.2,
     v1.1 * v2.2.1 - v1.2.1 * v2.1)
  let length := Real.sqrt (n.1 ^ 2 + n.2.1 ^ 2 + n.2.2 ^ 2)
  if 0 < length then (n.1 / length, n.2.1 / length, n.2.2 / length)
  else (0, 0, 1)

end MeshGen

namespace MainPy

/-- Embedding of `calculate_normals` in `art_tactile_transform/main.py` (a duplicate
of the one in `core/mesh_generation.py`), with the same `sqrtA` abstraction. -/
def calculate_normals (sqrtA : ℚ → ℚ) (z00 z10 z01 z11 : ℚ) (i j : ℕ)
    (pixel_scale : ℚ) : ℚ × ℚ × ℚ :=
  let v1 : ℚ × ℚ × ℚ := (pixel_scale, 0, z10 - z00)
  let v2 : ℚ × ℚ × ℚ := (0, pixel_scale, z01 - z00)
  let n := MeshGen.crossQ v1 v2
  let length := sqrtA (n.1 ^ 2 + n.2.1 ^ 2 + n.2.2 ^ 2)
  if 0 < length then (n.1 / length, n.2.1 / length, n.2.2 / length)
  else (0, 0, 1)

/-- The 14 lines written for cell `(i, j)` by `heightmap_to_stl` in
`art_tactile_transform/main.py` (lines 184–222). -/
def cellLines (sqrtA : ℚ → ℚ) (g : List (List ℚ)) (mn mx b ps : ℚ)
    (i j : ℕ) : List (List Char) :=
  let z00 := MeshGen.normalizedHeight mn mx b (MeshGen.att g i j)
  let z10 := MeshGen.normalizedHeight mn mx b (MeshGen.att g (i + 1) j)
  let z01 := MeshGen.normalizedHeight mn mx b (MeshGen.att g i (j + 1))
  let z11 := MeshGen.normalizedHeight mn mx b (MeshGen.att g (i + 1) (j + 1))
  let x0 := (i : ℚ) * ps
  let x1 := ((i : ℚ) + 1) * ps
  let y0 := (j : ℚ) * ps
  let y1 := ((j : ℚ) + 1) * ps
  let nm := calculate_normals sqrtA z00 z10 z01 z11 i j ps
  [facetHead ++ fmtFixed 6 nm.1 ++ [' '] ++ fmtFixed 6 nm.2.1 ++ [' '] ++ fmtFixed 6 nm.2.2,
   outerLine,
   vtxHead ++ fmtFixed 3 x0 ++ [' '] ++ fmtFixed 3 y0 ++ [' '] ++ fmtFixed 3 z00,
   vtxHead ++ fmtFixed 3 x1 ++ [' '] ++ fmtFixed 3 y0 ++ [' '] ++ fmtFixed 3 z10,
   vtxHead ++ fmtFixed 3 x1 ++ [' '] ++ fmtFixed 3 y1 ++ [' '] ++ fmtFixed 3 z11,
   endloopLine,
   endfacetLine,
   facetHead ++ fmtFixed 6 nm.1 ++ [' '] ++ fmtFixed 6 nm.2.1 ++ [' '] ++ fmtFixed 6 nm.2.2,
   outerLine,
   vtxHead ++ fmtFixed 3 x0 ++ [' '] ++ fmtFixed 3 y0 ++ [' '] ++ fmtFixed 3 z00,
   vtxHead ++ fmtFixed 3 x1 ++ [' '] ++ fmtFixed 3 y1 ++ [' '] ++ fmtFixed 3 z11,
   vtxHead ++ fmtFixed 3 x0 ++ [' '] ++ fmtFixed 3 y1 ++ [' '] ++ fmtFixed 3 z01,
   endloopLine,
   endfacetLine]

/-- Embedding of `heightmap_to_stl` in `art_tactile_transform/main.py`
(lines 180–245): no input validation, same written text. -/
def heightmap_to_stl (sqrtA : ℚ → ℚ) (g : List (List ℚ))
    (mn mx b ps : ℚ) : List Char :=
  let top : List (List Char) :=
    (List.range (MeshGen.rowsOf g - 1)).flatMap fun i =>
      (List.range (MeshGen.colsOf g - 1)).flatMap fun j =>
        cellLines sqrtA g mn mx b ps i j
  let maxX := ((MeshGen.rowsOf g : ℚ) - 1) * ps
  let maxY := ((MeshGen.colsOf g : ℚ) - 1) * ps
  let baseZ := b
  let base : List (List Char) :=
    [baseFacetLine,
     outerLine,
     vtxHead ++ ['0', '.', '0', ' ', '0', '.', '0', ' '] ++ fmtFixed 3 baseZ,
     vtxHead ++ fmtFixed 3 maxX ++ [' '] ++ fmtFixed 3 maxY ++ [' '] ++ fmtFixed 3 baseZ,
     vtxHead ++ fmtFixed 3 maxX ++ [' ', '0', '.', '0', ' '] ++ fmtFixed 3 baseZ,
     endloopLine,
     endfacetLine,
     baseFacetLine,
     outerLine,
     vtxHead ++ ['0', '.', '0', ' ', '0', '.', '0', ' '] ++ fmtFixed 3 baseZ,
     vtxHead ++ ['0', '.', '0', ' '] ++ fmtFixed 3 maxY ++ [' '] ++ fmtFixed 3 baseZ,
     vtxHead ++ fmtFixed 3 maxX ++ [' '] ++ fmtFixed 3 maxY ++ [' '] ++ fmtFixed 3 baseZ,
     endloopLine,
     endfacetLine]
  (solidLine :: (top ++ base ++ [endsolidPat])).flatMap fun l => l ++ ['\n']

end MainPy

namespace Validation

/-- Diagnostics appended by `validate_mesh` (validation.py), as tagged values
carrying the numeric payloads interpolated into the source's message strings. -/
inductive Msg where
  | invalidFormat
  | incomplete
  | noTriangles
  | vertexMismatch (found expected : ℕ)
  | readFailure
deriving DecidableEq, Repr

/-- The dictionary returned by `validate_mesh` (validation.py lines 61–67). -/
structure Report where
  valid : Bool
  errors : List Msg
  warnings : List Msg
  triangle_count : ℕ
  file_size : ℕ
deriving DecidableEq, Repr

/-- The checks `validate_mesh` performs on successfully read content
(validation.py lines 36–56) and the report it assembles (lines 61–67). -/
def validateContent (content : List Char) (fileSize : ℕ) : Report :=
  let e1 : List Msg := if leadsWith solidPat content then [] else [Msg.invalidFormat]
  let w1 : List Msg :=
    if endsWithB endsolidPat (rstripL content) then [] else [Msg.incomplete]
  let tc := countOcc fnPat content
  let e2 := e1 ++ (if tc = 0 then [Msg.noTriangles] else [])
  let vc := countOcc vxPat content
  let w2 := w1 ++ (if vc ≠ tc * 3 then [Msg.vertexMismatch vc (tc * 3)] else [])
  { valid := e2.isEmpty
    errors := e2
    warnings := w2
    triangle_count := tc
    file_size := fileSize }

/-- The one exception `validate_mesh` raises: `FileNotFoundError`. -/
inductive FsError where
  | notFound
deriving DecidableEq, Repr

/-- Embedding of `validate_mesh` (validation.py lines 7–67).  The filesystem entry
for the target path is `none` (does not exist, line 25 raises), `some none`
(exists but reading raises, caught at line 58 and recorded), or `some (some c)`.
`fileSize` models `path.stat().st_size`. -/
def validate_mesh (entry : Option (Option (List Char))) (fileSize : ℕ) :
    Except FsError Report :=
  match entry with
  | none => Except.error FsError.notFound
  | some none =>
    Except.ok
      { valid := false
        errors := [Msg.readFailure]
        warnings := []
        triangle_count := 0
        file_size := fileSize }
  | some (some c) => Except.ok (validateContent c fileSize)

end Validation

/-! String-counting infrastructure. -/

/-- All characters of a rendered number (and separating blanks). -/
def AllNum (s : List Char) : Prop :=
  ∀ c ∈ s, numCh c = true

theorem AllNum.append {s t : List Char} (hs : AllNum s) (ht : AllNum t) :
    AllNum (s ++ t) := by
  intro c hc
  rcases List.mem_append.mp hc with h | h
  · exact hs c h
  · exact ht c h

theorem AllNum.of_sub {s t : List Char} (h : t ⊆ s) (hs : AllNum s) : AllNum t :=
  fun c hc => hs c (h hc)

theorem allNum_digitChar (n : ℕ) : numCh (digitChar n) = true := by
  have h10 : n % 10 < 10 := Nat.mod_lt _ (by norm_num)
  unfold digitChar
  interval_cases h : (n % 10) <;> decide

theorem allNum_natDigitsAux (fuel n : ℕ) : AllNum (natDigitsAux fuel n) := by
  induction fuel generalizing n with
  | zero => intro c hc; simp [natDigitsAux] at hc
  | succ f ih =>
    intro c hc
    rw [natDigitsAux] at hc
    by_cases h : n < 10
    · rw [if_pos h] at hc
      simp only [List.mem_singleton] at hc
      exact hc ▸ allNum_digitChar n
    · rw [if_neg h] at hc
      rcases List.mem_append.mp hc with h1 | h1
      · exact ih _ c h1
      · simp only [List.mem_singleton] at h1
        exact h1 ▸ allNum_digitChar (n % 10)

theorem allNum_fmtFixed (prec : ℕ) (q : ℚ) : AllNum (fmtFixed prec q) := by
  unfold fmtFixed
  set m := roundHalfEven (q * 10 ^ prec) with hm
  have hbody : AllNum (natDigits m.natAbs) := allNum_natDigitsAux _ _
  have hs : AllNum (if prec + 1 ≤ (natDigits m.natAbs).length then natDigits m.natAbs
      else List.replicate (prec + 1 - (natDigits m.natAbs).length) '0' ++ natDigits m.natAbs) := by
    split
    · exact hbody
    · refine AllNum.append ?_ hbody
      intro d hd2
      rw [List.eq_of_mem_replicate hd2]
      decide
  have hsign : AllNum (if m < 0 then ['-'] else []) := by
    split
    · intro d hd2
      simp only [List.mem_singleton] at hd2
      rw [hd2]
      decide
    · intro d hd2
      simp at hd2
  refine AllNum.append (AllNum.append (AllNum.append hsign ?_) ?_) ?_
  · exact AllNum.of_sub (List.take_subset _ _) hs
  · intro d hd2
    simp only [List.mem_singleton] at hd2
    rw [hd2]
    decide
  · exact AllNum.of_sub (List.drop_subset _ _) hs

theorem countOcc_zero_of_head_notMem (c : Char) (ps s : List Char) (h : c ∉ s) :
    countOcc (c :: ps) s = 0 := by
  induction s with
  | nil => rfl
  | cons d rest ih =>
    have hcd : c ≠ d := fun he => h (he ▸ List.mem_cons_self d rest)
    have hlw : leadsWith (c :: ps) (d :: rest) = false := by
      simp [leadsWith, hcd]
    simp [countOcc, hlw, ih (fun hm => h (List.mem_cons_of_mem d hm))]

theorem notMem_of_allNum {s : List Char} (hs : AllNum s) {c : Char}
    (hc : numCh c = false) : c ∉ s := by
  intro hm
  rw [hs c hm] at hc
  exact Bool.noConfusion hc

/-- A pattern whose characters are all letters does not occur inside rendered
numbers. -/
theorem countOcc_fnPat_allNum {s : List Char} (hs : AllNum s) :
    countOcc fnPat s = 0 :=
  countOcc_zero_of_head_notMem _ _ _ (notMem_of_allNum hs (by decide))

theorem leadsWith_append_left {pat a : List Char} (b : List Char)
    (h : leadsWith pat a = true) : leadsWith pat (a ++ b) = true := by
  induction pat generalizing a with
  | nil => rfl
  | cons p ps ih =>
    cases a with
    | nil => simp [leadsWith] at h
    | cons x xs =>
      rw [List.cons_append, leadsWith, Bool.and_eq_true] at *
      exact ⟨h.1, ih h.2⟩

theorem leadsWith_append_nl {pat : List Char} (hnl : '\n' ∉ pat)
    (xs ys : List Char) : leadsWith pat (xs ++ '\n' :: ys) = leadsWith pat xs := by
  induction pat generalizing xs with
  | nil => rfl
  | cons p ps ih =>
    cases xs with
    | nil =>
      have hp : p ≠ '\n' := fun he => hnl (he ▸ List.mem_cons_self p ps)
      simp [leadsWith, hp]
    | cons x xs2 =>
      rw [List.cons_append, leadsWith, leadsWith,
        ih (fun hm => hnl (List.mem_cons_of_mem p hm))]

theorem countOcc_append_nl {pat : List Char} (hne : pat ≠ []) (hnl : '\n' ∉ pat)
    (xs ys : List Char) :
    countOcc pat (xs ++ '\n' :: ys) = countOcc pat xs + countOcc pat ys := by
  induction xs with
  | nil =>
    rcases pat with _ | ⟨p, ps⟩
    · exact absurd rfl hne
    · have hp : p ≠ '\n' := fun he => hnl (he ▸ List.mem_cons_self p ps)
      simp [countOcc, leadsWith, hp]
  | cons x xs2 ih =>
    have hlw := leadsWith_append_nl hnl (x :: xs2) ys
    rw [List.cons_append] at hlw
    rw [List.cons_append, countOcc, countOcc, hlw, ih]
    ring

/-- Occurrence count of a newline-free pattern in newline-terminated lines is the
sum of the per-line counts. -/
theorem countOcc_joinLines {pat : List Char} (hne : pat ≠ []) (hnl : '\n' ∉ pat)
    (lines : List (List Char)) :
    countOcc pat (lines.flatMap fun l => l ++ ['\n']) =
      (lines.map (countOcc pat)).sum := by
  induction lines with
  | nil => rfl
  | cons l rest ih =>
    rw [List.flatMap_cons, List.map_cons, List.sum_cons, ← ih,
      List.append_assoc, List.singleton_append, countOcc_append_nl hne hnl]

theorem countOcc_facetLine {s : List Char} (hs : AllNum s) :
    countOcc fnPat (facetHead ++ s) = 1 := by
  have h0 : countOcc ['f', 'a', 'c', 'e', 't', ' ', 'n', 'o', 'r', 'm', 'a', 'l'] s = 0 :=
    countOcc_fnPat_allNum hs
  simp [fnPat, facetHead, countOcc, leadsWith, h0]

theorem countOcc_fnPat_vtxLine {s : List Char} (hs : AllNum s) :
    countOcc fnPat (vtxHead ++ s) = 0 := by
  refine countOcc_zero_of_head_notMem _ _ _ ?_
  intro hm
  rcases List.mem_append.mp hm with h | h
  · simp [vtxHead] at h
  · exact notMem_of_allNum hs (by decide) h

theorem allNum_of_all {s : List Char} (h : s.all numCh = true) : AllNum s :=
  fun c hc => List.all_eq_true.mp h c hc

theorem allNum_space : AllNum [' '] :=
  allNum_of_all (by decide)

/-- Right-nested shape matching `List.append_assoc` normal form. -/
theorem allNum_triple (p : ℕ) (a b c : ℚ) :
    AllNum (fmtFixed p a ++ ([' '] ++ (fmtFixed p b ++ ([' '] ++ fmtFixed p c)))) :=
  (allNum_fmtFixed p a).append (allNum_space.append
    ((allNum_fmtFixed p b).append (allNum_space.append (allNum_fmtFixed p c))))

theorem count_fnPat_outer : countOcc fnPat outerLine = 0 := by decide

theorem count_fnPat_endloop : countOcc fnPat endloopLine = 0 := by decide

theorem count_fnPat_endfacet : countOcc fnPat endfacetLine = 0 := by decide

theorem count_fnPat_solidLine : countOcc fnPat solidLine = 0 := by decide

theorem count_fnPat_endsolid : countOcc fnPat endsolidPat = 0 := by decide

theorem count_fnPat_baseFacetLine : countOcc fnPat baseFacetLine = 1 := by decide

/-- Each cell block contributes exactly two `facet normal` occurrences. -/
theorem count_fnPat_cellLines (sqrtA : ℚ → ℚ) (g : List (List ℚ)) (mn mx b ps : ℚ)
    (i j : ℕ) :
    ((MeshGen.cellLines sqrtA g mn mx b ps i j).map (countOcc fnPat)).sum = 2 := by
  rw [MeshGen.cellLines]
  simp only [List.map_cons, List.map_nil, List.sum_cons, List.sum_nil, List.append_assoc]
  rw [countOcc_facetLine (allNum_triple 6 _ _ _),
    countOcc_fnPat_vtxLine (allNum_triple 3 _ _ _), countOcc_fnPat_vtxLine (allNum_triple 3 _ _ _),
    countOcc_fnPat_vtxLine (allNum_triple 3 _ _ _), countOcc_fnPat_vtxLine (allNum_triple 3 _ _ _),
    count_fnPat_outer, count_fnPat_endloop, count_fnPat_endfacet]
  norm_num

/-- The base-plate block contributes exactly two `facet normal` occurrences. -/
theorem count_fnPat_baseLines (g : List (List ℚ)) (b ps : ℚ) :
    ((MeshGen.baseLines g b ps).map (countOcc fnPat)).sum = 2 := by
  have hz : AllNum (['0', '.', '0', ' ', '0', '.', '0', ' '] ++ fmtFixed 3 b) :=
    (allNum_of_all (by decide)).append (allNum_fmtFixed 3 b)
  have hz2 : AllNum (['0', '.', '0', ' '] ++ (fmtFixed 3 (((MeshGen.colsOf g : ℚ) - 1) * ps)
      ++ ([' '] ++ fmtFixed 3 b))) :=
    (allNum_of_all (by decide)).append ((allNum_fmtFixed 3 _).append
      (allNum_space.append (allNum_fmtFixed 3 b)))
  have hz3 : AllNum (fmtFixed 3 (((MeshGen.rowsOf g : ℚ) - 1) * ps)
      ++ ([' ', '0', '.', '0', ' '] ++ fmtFixed 3 b)) :=
    (allNum_fmtFixed 3 _).append ((allNum_of_all (by decide)).append (allNum_fmtFixed 3 b))
  rw [MeshGen.baseLines]
  simp only [List.map_cons, List.map_nil, List.sum_cons, List.sum_nil, List.append_assoc]
  rw [countOcc_fnPat_vtxLine hz,
    countOcc_fnPat_vtxLine (allNum_triple 3 _ _ _),
    countOcc_fnPat_vtxLine hz2, countOcc_fnPat_vtxLine hz3,
    count_fnPat_outer, count_fnPat_endloop, count_fnPat_endfacet, count_fnPat_baseFacetLine]
  norm_num

theorem sum_map_flatMap {α β : Type} (l : List α) (F : α → List β) (g : β → ℕ) :
    ((l.flatMap F).map g).sum = (l.map fun a => ((F a).map g).sum).sum := by
  induction l with
  | nil => rfl
  | cons x xs ih => simp [List.flatMap_cons, ih]

theorem sum_map_const {α : Type} (l : List α) (k : ℕ) :
    (l.map fun _ => k).sum = l.length * k := by
  induction l with
  | nil => simp
  | cons x xs ih =>
    simp only [List.map_cons, List.sum_cons, ih, List.length_cons]
    ring

/-- Master count lemma: the written text contains exactly
`2·(R−1)·(C−1) + 2` occurrences of `facet normal`, for every grid, config and
square-root routine. -/
theorem count_fnPat_stlText (sqrtA : ℚ → ℚ) (g : List (List ℚ)) (mn mx b ps : ℚ) :
    countOcc fnPat (MeshGen.stlText sqrtA g mn mx b ps) =
      2 * ((MeshGen.rowsOf g - 1) * (MeshGen.colsOf g - 1)) + 2 := by
  rw [MeshGen.stlText, countOcc_joinLines (by decide) (by decide), MeshGen.stlLines]
  simp only [List.map_cons, List.sum_cons, List.map_append, List.sum_append,
    List.map_nil, List.sum_nil]
  rw [count_fnPat_solidLine, count_fnPat_endsolid, count_fnPat_baseLines,
    MeshGen.topLines, sum_map_flatMap]
  simp only [sum_map_flatMap, count_fnPat_cellLines]
  rw [sum_map_const, sum_map_const, List.length_range, List.length_range]
  ring

/-- The written text starts with `solid`. -/
theorem stlText_starts_solid (sqrtA : ℚ → ℚ) (g : List (List ℚ)) (mn mx b ps : ℚ) :
    leadsWith solidPat (MeshGen.stlText sqrtA g mn mx b ps) = true := by
  rw [MeshGen.stlText, MeshGen.stlLines, List.flatMap_cons]
  exact leadsWith_append_left _ (leadsWith_append_left _ (by decide))

/-! Indexed access into the emission order. -/

theorem getElem_flatMap_const {α β : Type} (L : ℕ) (xs : List β) (F : β → List α)
    (hL : ∀ y, (F y).length = L) (i k : ℕ) (hk : k < L) (y : β)
    (hy : xs[i]? = some y) :
    (xs.flatMap F)[L * i + k]? = (F y)[k]? := by
  induction xs generalizing i with
  | nil => simp at hy
  | cons x xs2 ih =>
    cases i with
    | zero =>
      simp only [List.getElem?_cons_zero, Option.some.injEq] at hy
      subst hy
      rw [List.flatMap_cons, Nat.mul_zero, Nat.zero_add, List.getElem?_append,
        if_pos (by rw [hL x]; exact hk)]
    | succ i2 =>
      rw [List.flatMap_cons]
      have hlen : (F x).length = L := hL x
      have hidx : L * (i2 + 1) + k = (F x).length + (L * i2 + k) := by
        rw [hlen]; ring
      rw [hidx, List.getElem?_append, if_neg (by omega)]
      have hsub : (F x).length + (L * i2 + k) - (F x).length = L * i2 + k := by omega
      rw [hsub]
      exact ih i2 (by simpa using hy)

theorem cellTris_length (sqrtA : ℚ → ℚ) (g : List (List ℚ)) (mn mx b ps : ℚ)
    (i j : ℕ) : (MeshGen.cellTris sqrtA g mn mx b ps i j).length = 2 := by
  rw [MeshGen.cellTris]
  rfl

/-- Element `2·(i·(C−1)+j) + k` of the top-surface emission is element `k` of
cell `(i, j)`: cells appear in row-major order, two triangles per cell. -/
theorem topTris_getElem (sqrtA : ℚ → ℚ) (g : List (List ℚ)) (mn mx b ps : ℚ)
    (i j k : ℕ) (hi : i < MeshGen.rowsOf g - 1) (hj : j < MeshGen.colsOf g - 1)
    (hk : k < 2) :
    (MeshGen.topTris sqrtA g mn mx b ps)[2 * (i * (MeshGen.colsOf g - 1) + j) + k]? =
      (MeshGen.cellTris sqrtA g mn mx b ps i j)[k]? := by
  rw [MeshGen.topTris]
  have hinner : ∀ i2 : ℕ, ((List.range (MeshGen.colsOf g - 1)).flatMap fun j2 =>
      MeshGen.cellTris sqrtA g mn mx b ps i2 j2).length =
      2 * (MeshGen.colsOf g - 1) := by
    intro i2
    rw [List.length_flatMap]
    have : (List.map (List.length ∘ fun j2 => MeshGen.cellTris sqrtA g mn mx b ps i2 j2)
        (List.range (MeshGen.colsOf g - 1))) =
        (List.range (MeshGen.colsOf g - 1)).map fun _ => 2 := by
      refine List.map_congr_left ?_
      intro j2 _
      exact cellTris_length sqrtA g mn mx b ps i2 j2
    rw [this, sum_map_const, List.length_range]
    ring
  have hidx : 2 * (i * (MeshGen.colsOf g - 1) + j) + k =
      (2 * (MeshGen.colsOf g - 1)) * i + (2 * j + k) := by ring
  rw [hidx,
    getElem_flatMap_const (2 * (MeshGen.colsOf g - 1)) _ _ hinner i (2 * j + k)
      (by omega) i (by simp [List.getElem?_range, hi]),
    getElem_flatMap_const 2 _ _ (fun j2 => cellTris_length sqrtA g mn mx b ps i j2) j k
      hk j (by simp [List.getElem?_range, hj])]

/-! Claim theorems. -/

/-- C1, counterexample: serializing a 3×3 grid (default config, any square-root
routine instance) and validating yields triangle_count 10, not the claimed 26:
the generator emits no perimeter-wall facets. -/
theorem C1_counterexample :
    (Validation.validateContent
      (MeshGen.stlText (fun _ => 1) [[0, 0, 0], [0, 0, 0], [0, 0, 0]] (1/5) 2 1 (1/5))
      0).triangle_count = 10 ∧ (10 : ℕ) ≠ 26 := by
  constructor
  · have h := count_fnPat_stlText (fun _ => 1) [[0, 0, 0], [0, 0, 0], [0, 0, 0]] (1/5) 2 1 (1/5)
    have h2 : (Validation.validateContent
        (MeshGen.stlText (fun _ => 1) [[0, 0, 0], [0, 0, 0], [0, 0, 0]] (1/5) 2 1 (1/5))
        0).triangle_count =
        countOcc fnPat
          (MeshGen.stlText (fun _ => 1) [[0, 0, 0], [0, 0, 0], [0, 0, 0]] (1/5) 2 1 (1/5)) := rfl
    rw [h2, h]
    decide
  · decide

/-- C1 (amended): the STL text produced by heightmap_to_stl contains exactly
`2·(R−1)·(C−1) + 2` facets (top surface plus base plate; there are no wall
facets), so validating a serialized 3×3 grid reports triangle_count 10. -/
theorem C1_triangle_count (sqrtA : ℚ → ℚ) (g : List (List ℚ)) (mn mx b ps : ℚ) (sz : ℕ)
    (hR : 2 ≤ MeshGen.rowsOf g) (hC : 2 ≤ MeshGen.colsOf g) :
    (Validation.validateContent (MeshGen.stlText sqrtA g mn mx b ps) sz).triangle_count =
      2 * ((MeshGen.rowsOf g - 1) * (MeshGen.colsOf g - 1)) + 2 := by
  have h2 : (Validation.validateContent (MeshGen.stlText sqrtA g mn mx b ps) sz).triangle_count =
      countOcc fnPat (MeshGen.stlText sqrtA g mn mx b ps) := rfl
  rw [h2, count_fnPat_stlText]

/-- C1 witness: at the 3×3 grid with default config the amended count is 10. -/
theorem C1_triangle_count_witness :
    (2 ≤ MeshGen.rowsOf [[0, 0, 0], [0, 0, 0], [0, 0, 0]]) ∧
    (Validation.validateContent
      (MeshGen.stlText (fun _ => 1) [[0, 0, 0], [0, 0, 0], [0, 0, 0]] (1/5) 2 1 (1/5))
      0).triangle_count = 10 :=
  ⟨by decide,
    (C1_triangle_count (fun _ => 1) [[0, 0, 0], [0, 0, 0], [0, 0, 0]] (1/5) 2 1 (1/5) 0
      (by decide) (by decide)).trans (by decide)⟩

/-- C2, counterexample: with the default config (base_thickness_mm = 1) the first
base-plate vertex has z = 1, not the claimed 0: the base plate is written at
z = base_thickness_mm. -/
theorem C2_counterexample :
    (MeshGen.baseTris [[0, 0], [0, 0]] 1 (1/5)).map (fun t => t.v0.2.2) = [1, 1] ∧
    (1 : ℚ) ≠ 0 :=
  ⟨rfl, one_ne_zero⟩

/-- C2 (amended): heightmap_to_stl emits exactly two base-plate triangles spanning
the rectangle from (0,0) to ((R−1)·pixel_scale_mm, (C−1)·pixel_scale_mm), with
normal (0,0,−1), but at z = base_thickness_mm (nonzero for any valid config),
not at z = 0. -/
theorem C2_base_plate (g : List (List ℚ)) (b ps : ℚ) :
    MeshGen.baseTris g b ps =
      [⟨(0, 0, -1), (0, 0, b),
        (((MeshGen.rowsOf g : ℚ) - 1) * ps, ((MeshGen.colsOf g : ℚ) - 1) * ps, b),
        (((MeshGen.rowsOf g : ℚ) - 1) * ps, 0, b)⟩,
       ⟨(0, 0, -1), (0, 0, b),
        (0, ((MeshGen.colsOf g : ℚ) - 1) * ps, b),
        (((MeshGen.rowsOf g : ℚ) - 1) * ps, ((MeshGen.colsOf g : ℚ) - 1) * ps, b)⟩] ∧
    (0 < b → ∀ t ∈ MeshGen.baseTris g b ps,
      t.v0.2.2 ≠ 0 ∧ t.v1.2.2 ≠ 0 ∧ t.v2.2.2 ≠ 0) := by
  constructor
  · rfl
  · intro hb t ht
    have hbne : b ≠ 0 := ne_of_gt hb
    rw [MeshGen.baseTris] at ht
    simp only [List.mem_cons, List.mem_singleton, List.not_mem_nil, or_false] at ht
    rcases ht with h | h <;> subst h <;> exact ⟨hbne, hbne, hbne⟩

/-- C2 witness: the amended statement at a concrete grid and config. -/
theorem C2_base_plate_witness :
    MeshGen.baseTris [[0, 0], [0, 0]] 1 (1/5) =
      [⟨(0, 0, -1), (0, 0, 1),
        (((MeshGen.rowsOf [[0, 0], [0, 0]] : ℚ) - 1) * (1/5),
         ((MeshGen.colsOf [[0, 0], [0, 0]] : ℚ) - 1) * (1/5), 1),
        (((MeshGen.rowsOf [[0, 0], [0, 0]] : ℚ) - 1) * (1/5), 0, 1)⟩,
       ⟨(0, 0, -1), (0, 0, 1),
        (0, ((MeshGen.colsOf [[0, 0], [0, 0]] : ℚ) - 1) * (1/5), 1),
        (((MeshGen.rowsOf [[0, 0], [0, 0]] : ℚ) - 1) * (1/5),
         ((MeshGen.colsOf [[0, 0], [0, 0]] : ℚ) - 1) * (1/5), 1)⟩] ∧
    ∀ t ∈ MeshGen.baseTris [[0, 0], [0, 0]] 1 (1/5),
      t.v0.2.2 ≠ 0 ∧ t.v1.2.2 ≠ 0 ∧ t.v2.2.2 ≠ 0 :=
  ⟨(C2_base_plate [[0, 0], [0, 0]] 1 (1/5)).1,
   (C2_base_plate [[0, 0], [0, 0]] 1 (1/5)).2 one_pos⟩

/-- C3, counterexample: the 1×1 grid [[0.0]] is accepted (no error, full output
written), and so is an inverted config with max_height_mm ≤ min_height_mm:
the source only rejects empty or non-2D heightmaps. -/
theorem C3_counterexample :
    MeshGen.heightmap_to_stl (fun _ => 1) [[0]] (1/5) 2 1 (1/5) =
      Except.ok (MeshGen.stlText (fun _ => 1) [[0]] (1/5) 2 1 (1/5)) ∧
    MeshGen.heightmap_to_stl (fun _ => 1) [[0, 1], [1, 0]] 2 1 1 (1/5) =
      Except.ok (MeshGen.stlText (fun _ => 1) [[0, 1], [1, 0]] 2 1 1 (1/5)) := by
  constructor <;>
    · unfold MeshGen.heightmap_to_stl
      rw [if_neg (by decide)]

/-- C3 (amended): heightmap_to_stl raises ValueError exactly when the (2D)
heightmap has size 0, before any output is produced; grids with R = 1 or C = 1
and configs with max_height_mm ≤ min_height_mm are accepted. -/
theorem C3_only_empty_rejected (sqrtA : ℚ → ℚ) (g : List (List ℚ)) (mn mx b ps : ℚ) :
    (MeshGen.heightmap_to_stl sqrtA g mn mx b ps = Except.error MeshGen.GenErr.emptyHeightmap
      ↔ (g.map List.length).sum = 0) ∧
    ((g.map List.length).sum ≠ 0 →
      MeshGen.heightmap_to_stl sqrtA g mn mx b ps =
        Except.ok (MeshGen.stlText sqrtA g mn mx b ps)) := by
  unfold MeshGen.heightmap_to_stl
  by_cases h : (g.map List.length).sum = 0 <;> simp [h]

/-- C3 witness: the empty grid is rejected, the 1×1 grid is not. -/
theorem C3_only_empty_rejected_witness :
    (MeshGen.heightmap_to_stl (fun _ => 1) ([] : List (List ℚ)) (1/5) 2 1 (1/5) =
      Except.error MeshGen.GenErr.emptyHeightmap) ∧
    MeshGen.heightmap_to_stl (fun _ => 1) [[0]] (1/5) 2 1 (1/5) =
      Except.ok (MeshGen.stlText (fun _ => 1) [[0]] (1/5) 2 1 (1/5)) :=
  ⟨(C3_only_empty_rejected (fun _ => 1) [] (1/5) 2 1 (1/5)).1.mpr (by decide),
   (C3_only_empty_rejected (fun _ => 1) [[0]] (1/5) 2 1 (1/5)).2 (by decide)⟩

/-- C4: validating the serialized STL of any valid grid (R ≥ 2, C ≥ 2) and any
config yields a report with valid = true and errors = []. -/
theorem C4_round_trip (sqrtA : ℚ → ℚ) (g : List (List ℚ)) (mn mx b ps : ℚ) (sz : ℕ)
    (hR : 2 ≤ MeshGen.rowsOf g) (hC : 2 ≤ MeshGen.colsOf g) :
    ∃ r, Validation.validate_mesh (some (some (MeshGen.stlText sqrtA g mn mx b ps))) sz =
        Except.ok r ∧ r.valid = true ∧ r.errors = [] := by
  refine ⟨Validation.validateContent (MeshGen.stlText sqrtA g mn mx b ps) sz, rfl, ?_, ?_⟩
  · have hs := stlText_starts_solid sqrtA g mn mx b ps
    have htc : countOcc fnPat (MeshGen.stlText sqrtA g mn mx b ps) ≠ 0 := by
      rw [count_fnPat_stlText]
      omega
    simp [Validation.validateContent, hs, htc]
  · have hs := stlText_starts_solid sqrtA g mn mx b ps
    have htc : countOcc fnPat (MeshGen.stlText sqrtA g mn mx b ps) ≠ 0 := by
      rw [count_fnPat_stlText]
      omega
    simp [Validation.validateContent, hs, htc]

/-- C4 witness: the round trip at a concrete 2×2 grid. -/
theorem C4_round_trip_witness :
    ∃ r, Validation.validate_mesh
        (some (some (MeshGen.stlText (fun _ => 1) [[0, 1], [1, 0]] (1/5) 2 1 (1/5)))) 0 =
        Except.ok r ∧ r.valid = true ∧ r.errors = [] :=
  C4_round_trip (fun _ => 1) [[0, 1], [1, 0]] (1/5) 2 1 (1/5) 0 (by decide) (by decide)

/-- C5: the top-surface z coordinate used by heightmap_to_stl equals
`min_height_mm + base_thickness_mm + h·(max_height_mm − min_height_mm)`;
h = 0 maps to min + base and h = 1 maps to max + base. -/
theorem C5_height_mapping (mn mx b h : ℚ) :
    MeshGen.normalizedHeight mn mx b h = mn + b + h * (mx - mn) ∧
    MeshGen.normalizedHeight mn mx b 0 = mn + b ∧
    MeshGen.normalizedHeight mn mx b 1 = mx + b := by
  unfold MeshGen.normalizedHeight
  exact ⟨by ring, by ring, by ring⟩

/-- C6: for every cell (i,j) the generator emits exactly two triangles, at
positions 2·(i·(C−1)+j) and 2·(i·(C−1)+j)+1 of the top-surface emission
(row-major, first triangle before the second), with vertex triples
(i,j)-(i+1,j)-(i+1,j+1) and (i,j)-(i+1,j+1)-(i,j+1), x = row·pixel_scale,
y = col·pixel_scale, both carrying the same per-cell normal. -/
theorem C6_cell_emission (sqrtA : ℚ → ℚ) (g : List (List ℚ)) (mn mx b ps : ℚ)
    (i j : ℕ) (hi : i < MeshGen.rowsOf g - 1) (hj : j < MeshGen.colsOf g - 1) :
    (MeshGen.topTris sqrtA g mn mx b ps)[2 * (i * (MeshGen.colsOf g - 1) + j)]? =
      some ⟨MeshGen.calculate_normals sqrtA
              (MeshGen.normalizedHeight mn mx b (MeshGen.att g i j))
              (MeshGen.normalizedHeight mn mx b (MeshGen.att g (i + 1) j))
              (MeshGen.normalizedHeight mn mx b (MeshGen.att g i (j + 1)))
              (MeshGen.normalizedHeight mn mx b (MeshGen.att g (i + 1) (j + 1))) i j ps,
            ((i : ℚ) * ps, (j : ℚ) * ps, MeshGen.normalizedHeight mn mx b (MeshGen.att g i j)),
            (((i : ℚ) + 1) * ps, (j : ℚ) * ps,
              MeshGen.normalizedHeight mn mx b (MeshGen.att g (i + 1) j)),
            (((i : ℚ) + 1) * ps, ((j : ℚ) + 1) * ps,
              MeshGen.normalizedHeight mn mx b (MeshGen.att g (i + 1) (j + 1)))⟩ ∧
    (MeshGen.topTris sqrtA g mn mx b ps)[2 * (i * (MeshGen.colsOf g - 1) + j) + 1]? =
      some ⟨MeshGen.calculate_normals sqrtA
              (MeshGen.normalizedHeight mn mx b (MeshGen.att g i j))
              (MeshGen.normalizedHeight mn mx b (MeshGen.att g (i + 1) j))
              (MeshGen.normalizedHeight mn mx b (MeshGen.att g i (j + 1)))
              (MeshGen.normalizedHeight mn mx b (MeshGen.att g (i + 1) (j + 1))) i j ps,
            ((i : ℚ) * ps, (j : ℚ) * ps, MeshGen.normalizedHeight mn mx b (MeshGen.att g i j)),
            (((i : ℚ) + 1) * ps, ((j : ℚ) + 1) * ps,
              MeshGen.normalizedHeight mn mx b (MeshGen.att g (i + 1) (j + 1))),
            ((i : ℚ) * ps, ((j : ℚ) + 1) * ps,
              MeshGen.normalizedHeight mn mx b (MeshGen.att g i (j + 1)))⟩ := by
  constructor
  · have h0 := topTris_getElem sqrtA g mn mx b ps i j 0 hi hj (by norm_num)
    rw [Nat.add_zero] at h0
    rw [h0]
    rfl
  · have h1 := topTris_getElem sqrtA g mn mx b ps i j 1 hi hj (by norm_num)
    rw [h1]
    rfl

/-- C6 witness: the cell theorem at the 2×2 grid, cell (0,0). -/
theorem C6_cell_emission_witness :
    (MeshGen.topTris (fun _ => 1) [[0, 0], [0, 0]] (1/5) 2 1 (1/5))[2 *
        (0 * (MeshGen.colsOf [[0, 0], [0, 0]] - 1) + 0)]? =
      some ⟨MeshGen.calculate_normals (fun _ => 1)
              (MeshGen.normalizedHeight (1/5) 2 1 (MeshGen.att [[0, 0], [0, 0]] 0 0))
              (MeshGen.normalizedHeight (1/5) 2 1 (MeshGen.att [[0, 0], [0, 0]] 1 0))
              (MeshGen.normalizedHeight (1/5) 2 1 (MeshGen.att [[0, 0], [0, 0]] 0 1))
              (MeshGen.normalizedHeight (1/5) 2 1 (MeshGen.att [[0, 0], [0, 0]] 1 1)) 0 0 (1/5),
            (((0 : ℕ) : ℚ) * (1/5), ((0 : ℕ) : ℚ) * (1/5),
              MeshGen.normalizedHeight (1/5) 2 1 (MeshGen.att [[0, 0], [0, 0]] 0 0)),
            ((((0 : ℕ) : ℚ) + 1) * (1/5), ((0 : ℕ) : ℚ) * (1/5),
              MeshGen.normalizedHeight (1/5) 2 1 (MeshGen.att [[0, 0], [0, 0]] 1 0)),
            ((((0 : ℕ) : ℚ) + 1) * (1/5), (((0 : ℕ) : ℚ) + 1) * (1/5),
              MeshGen.normalizedHeight (1/5) 2 1 (MeshGen.att [[0, 0], [0, 0]] 1 1))⟩ ∧
    (MeshGen.topTris (fun _ => 1) [[0, 0], [0, 0]] (1/5) 2 1 (1/5))[2 *
          (0 * (MeshGen.colsOf [[0, 0], [0, 0]] - 1) + 0) + 1]? =
      some ⟨MeshGen.calculate_normals (fun _ => 1)
              (MeshGen.normalizedHeight (1/5) 2 1 (MeshGen.att [[0, 0], [0, 0]] 0 0))
              (MeshGen.normalizedHeight (1/5) 2 1 (MeshGen.att [[0, 0], [0, 0]] 1 0))
              (MeshGen.normalizedHeight (1/5) 2 1 (MeshGen.att [[0, 0], [0, 0]] 0 1))
              (MeshGen.normalizedHeight (1/5) 2 1 (MeshGen.att [[0, 0], [0, 0]] 1 1)) 0 0 (1/5),
            (((0 : ℕ) : ℚ) * (1/5), ((0 : ℕ) : ℚ) * (1/5),
              MeshGen.normalizedHeight (1/5) 2 1 (MeshGen.att [[0, 0], [0, 0]] 0 0)),
            ((((0 : ℕ) : ℚ) + 1) * (1/5), (((0 : ℕ) : ℚ) + 1) * (1/5),
              MeshGen.normalizedHeight (1/5) 2 1 (MeshGen.att [[0, 0], [0, 0]] 1 1)),
            (((0 : ℕ) : ℚ) * (1/5), (((0 : ℕ) : ℚ) + 1) * (1/5),
              MeshGen.normalizedHeight (1/5) 2 1 (MeshGen.att [[0, 0], [0, 0]] 0 1))⟩ :=
  C6_cell_emission (fun _ => 1) [[0, 0], [0, 0]] (1/5) 2 1 (1/5) 0 0 (by decide) (by decide)

/-- C7: with exact arithmetic, calculate_normals returns a unit-length vector
whenever pixel_scale ≠ 0; the cross product of e1 = (pixel_scale, 0, z10−z00)
and e2 = (0, pixel_scale, z01−z00) has length 0 only when pixel_scale = 0; and
when that length is 0 the function returns (0,0,1). -/
theorem C7_unit_normal (z00 z10 z01 z11 : ℝ) (i j : ℕ) (p : ℝ) :
    (p ≠ 0 →
      Real.sqrt ((MeshGen.calculate_normalsR z00 z10 z01 z11 i j p).1 ^ 2 +
        (MeshGen.calculate_normalsR z00 z10 z01 z11 i j p).2.1 ^ 2 +
        (MeshGen.calculate_normalsR z00 z10 z01 z11 i j p).2.2 ^ 2) = 1) ∧
    (p ≠ 0 →
      Real.sqrt ((0 * (z01 - z00) - (z10 - z00) * p) ^ 2 +
        ((z10 - z00) * 0 - p * (z01 - z00)) ^ 2 + (p * p - 0 * 0) ^ 2) ≠ 0) ∧
    (Real.sqrt ((0 * (z01 - z00) - (z10 - z00) * p) ^ 2 +
        ((z10 - z00) * 0 - p * (z01 - z00)) ^ 2 + (p * p - 0 * 0) ^ 2) = 0 →
      MeshGen.calculate_normalsR z00 z10 z01 z11 i j p = (0, 0, 1)) := by
  have hSpos : p ≠ 0 → 0 < (0 * (z01 - z00) - (z10 - z00) * p) ^ 2 +
      ((z10 - z00) * 0 - p * (z01 - z00)) ^ 2 + (p * p - 0 * 0) ^ 2 := by
    intro hp
    have h3 : 0 < (p * p - 0 * 0) ^ 2 := by
      have hne : p * p - 0 * 0 ≠ 0 := by
        simpa using mul_ne_zero hp hp
      exact pow_two_pos_of_ne_zero hne
    have h1 : 0 ≤ (0 * (z01 - z00) - (z10 - z00) * p) ^ 2 := sq_nonneg _
    have h2 : 0 ≤ ((z10 - z00) * 0 - p * (z01 - z00)) ^ 2 := sq_nonneg _
    linarith
  refine ⟨?_, ?_, ?_⟩
  · intro hp
    have hS := hSpos hp
    have hL : 0 < Real.sqrt ((0 * (z01 - z00) - (z10 - z00) * p) ^ 2 +
        ((z10 - z00) * 0 - p * (z01 - z00)) ^ 2 + (p * p - 0 * 0) ^ 2) :=
      Real.sqrt_pos.mpr hS
    unfold MeshGen.calculate_normalsR
    simp only
    rw [if_pos hL]
    have hLsq : (Real.sqrt ((0 * (z01 - z00) - (z10 - z00) * p) ^ 2 +
        ((z10 - z00) * 0 - p * (z01 - z00)) ^ 2 + (p * p - 0 * 0) ^ 2)) ^ 2 =
        (0 * (z01 - z00) - (z10 - z00) * p) ^ 2 +
        ((z10 - z00) * 0 - p * (z01 - z00)) ^ 2 + (p * p - 0 * 0) ^ 2 :=
      Real.sq_sqrt hS.le
    have hsum : ((0 * (z01 - z00) - (z10 - z00) * p) /
          Real.sqrt ((0 * (z01 - z00) - (z10 - z00) * p) ^ 2 +
            ((z10 - z00) * 0 - p * (z01 - z00)) ^ 2 + (p * p - 0 * 0) ^ 2)) ^ 2 +
        (((z10 - z00) * 0 - p * (z01 - z00)) /
          Real.sqrt ((0 * (z01 - z00) - (z10 - z00) * p) ^ 2 +
            ((z10 - z00) * 0 - p * (z01 - z00)) ^ 2 + (p * p - 0 * 0) ^ 2)) ^ 2 +
        ((p * p - 0 * 0) /
          Real.sqrt ((0 * (z01 - z00) - (z10 - z00) * p) ^ 2 +
            ((z10 - z00) * 0 - p * (z01 - z00)) ^ 2 + (p * p - 0 * 0) ^ 2)) ^ 2 = 1 := by
      rw [div_pow, div_pow, div_pow, hLsq, div_add_div_same, div_add_div_same]
      exact div_self (ne_of_gt hS)
    rw [hsum, Real.sqrt_one]
  · intro hp
    exact ne_of_gt (Real.sqrt_pos.mpr (hSpos hp))
  · intro h0
    unfold MeshGen.calculate_normalsR
    simp only
    rw [if_neg (by rw [h0]; exact lt_irrefl 0)]

/-- C7 witness: at z = 0 heights and pixel_scale = 1 the hypotheses hold. -/
theorem C7_unit_normal_witness :
    Real.sqrt ((MeshGen.calculate_normalsR 0 0 0 0 0 0 1).1 ^ 2 +
      (MeshGen.calculate_normalsR 0 0 0 0 0 0 1).2.1 ^ 2 +
      (MeshGen.calculate_normalsR 0 0 0 0 0 0 1).2.2 ^ 2) = 1 :=
  (C7_unit_normal 0 0 0 0 0 0 1).1 one_ne_zero

/-- C8: for every STL text, the report's triangle_count is the number of
occurrences of "facet normal"; a count of zero yields valid = false; validity
depends only on the "solid" prefix and a nonzero count (so a vertex-count
mismatch and a missing "endsolid tactile_model" trailer add warnings, never
errors). -/
theorem C8_validator_counts (c : List Char) (sz : ℕ) :
    (Validation.validateContent c sz).triangle_count = countOcc fnPat c ∧
    (Validation.validateContent c sz).errors =
      (if leadsWith solidPat c then [] else [Validation.Msg.invalidFormat]) ++
      (if countOcc fnPat c = 0 then [Validation.Msg.noTriangles] else []) ∧
    (countOcc fnPat c = 0 → (Validation.validateContent c sz).valid = false) ∧
    ((Validation.validateContent c sz).valid = true ↔
      leadsWith solidPat c = true ∧ countOcc fnPat c ≠ 0) ∧
    (countOcc vxPat c ≠ countOcc fnPat c * 3 →
      Validation.Msg.vertexMismatch (countOcc vxPat c) (countOcc fnPat c * 3) ∈
        (Validation.validateContent c sz).warnings) ∧
    (endsWithB endsolidPat (rstripL c) = false →
      Validation.Msg.incomplete ∈ (Validation.validateContent c sz).warnings) := by
  refine ⟨rfl, rfl, ?_, ?_, ?_, ?_⟩
  · intro h0
    by_cases h1 : leadsWith solidPat c <;> simp [Validation.validateContent, h0, h1]
  · by_cases h1 : leadsWith solidPat c <;>
      by_cases h2 : countOcc fnPat c = 0 <;>
        simp [Validation.validateContent, h1, h2]
  · intro hv
    by_cases h1 : endsWithB endsolidPat (rstripL c) <;>
      simp [Validation.validateContent, hv, h1]
  · intro he
    by_cases h2 : countOcc vxPat c = countOcc fnPat c * 3 <;>
      simp [Validation.validateContent, he, h2]

/-- C8 witness: the validator facts at the concrete text "vertex". -/
theorem C8_validator_counts_witness :
    (Validation.validateContent ['v', 'e', 'r', 't', 'e', 'x'] 0).triangle_count =
      countOcc fnPat ['v', 'e', 'r', 't', 'e', 'x'] ∧
    (Validation.validateContent ['v', 'e', 'r', 't', 'e', 'x'] 0).valid = false ∧
    Validation.Msg.vertexMismatch (countOcc vxPat ['v', 'e', 'r', 't', 'e', 'x'])
        (countOcc fnPat ['v', 'e', 'r', 't', 'e', 'x'] * 3) ∈
      (Validation.validateContent ['v', 'e', 'r', 't', 'e', 'x'] 0).warnings ∧
    Validation.Msg.incomplete ∈
      (Validation.validateContent ['v', 'e', 'r', 't', 'e', 'x'] 0).warnings := by
  obtain ⟨hA, hB, hC, hD, hE, hF⟩ := C8_validator_counts ['v', 'e', 'r', 't', 'e', 'x'] 0
  exact ⟨hA, hC (by decide), hE (by decide), hF (by decide)⟩

/-- C9: validate_mesh raises the not-found error exactly when the target path
does not exist; for every existing entry (readable or not) it returns a
report. -/
theorem C9_not_found (entry : Option (Option (List Char))) (sz : ℕ) :
    (Validation.validate_mesh entry sz = Except.error Validation.FsError.notFound ↔
      entry = none) ∧
    (∀ e, entry = some e → ∃ r, Validation.validate_mesh entry sz = Except.ok r) := by
  cases entry with
  | none => simp [Validation.validate_mesh]
  | some e =>
    cases e with
    | none => simp [Validation.validate_mesh]
    | some c => simp [Validation.validate_mesh]

/-- C9 witness: a missing path raises, an existing empty file returns a report. -/
theorem C9_not_found_witness :
    Validation.validate_mesh none 0 = Except.error Validation.FsError.notFound ∧
    ∃ r, Validation.validate_mesh (some (some [])) 0 = Except.ok r :=
  ⟨(C9_not_found none 0).1.mpr rfl,
   (C9_not_found (some (some [])) 0).2 (some []) rfl⟩

/-- C10, counterexample: on the empty 2D heightmap [[],[]] the core
implementation raises (produces no STL text) while the main.py implementation
writes a non-empty file, so the two are not byte-identical on every 2D
heightmap. -/
theorem C10_counterexample :
    MeshGen.heightmap_to_stl (fun _ => 1) [[], []] (1/5) 2 1 (1/5) =
      Except.error MeshGen.GenErr.emptyHeightmap ∧
    MainPy.heightmap_to_stl (fun _ => 1) [[], []] (1/5) 2 1 (1/5) ≠ [] := by
  constructor
  · unfold MeshGen.heightmap_to_stl
    rw [if_pos (by decide)]
  · unfold MainPy.heightmap_to_stl
    simp [List.flatMap_cons, solidLine]

/-- C10 (amended): on every nonempty 2D heightmap and identical parameters the
two implementations produce byte-identical STL text. -/
theorem C10_equivalent (sqrtA : ℚ → ℚ) (g : List (List ℚ)) (mn mx b ps : ℚ)
    (h : (g.map List.length).sum ≠ 0) :
    MeshGen.heightmap_to_stl sqrtA g mn mx b ps =
      Except.ok (MainPy.heightmap_to_stl sqrtA g mn mx b ps) := by
  unfold MeshGen.heightmap_to_stl
  rw [if_neg h]
  rfl

/-- C10 witness: the equivalence at a concrete 1×1 grid. -/
theorem C10_equivalent_witness :
    MeshGen.heightmap_to_stl (fun _ => 1) [[0]] (1/5) 2 1 (1/5) =
      Except.ok (MainPy.heightmap_to_stl (fun _ => 1) [[0]] (1/5) 2 1 (1/5)) :=
  C10_equivalent (fun _ => 1) [[0]] (1/5) 2 1 (1/5) (by decide)

